import Mathlib

set_option autoImplicit false

/-!
Shallow embedding of the fitsrotate_rs core (src/main.rs): the FITS
axis-permutation and header-remapping engine.  Rust panics (unwrap on a
missing key, out-of-bounds indexing, the explicit `panic!` call) are modelled
by dedicated outcomes (`none` / `panicked`), kept distinct from recoverable
`fitsio::errors::Error` values, which are modelled as error results.  The
filesystem visible to the program is modelled as an association of paths to
FITS file contents; sample values are an opaque type parameter, since the
core only moves them.
-/

namespace FitsRotate

/-- Embeds `fits_index_to_array_index` (src/main.rs:50-55).  The Rust body
builds `Vec::from_iter((0..naxis as i32).rev())` and indexes it at
`fits_index - 1`.  For `fits_index = 0` the `usize` subtraction wraps and the
bounds check aborts; for `fits_index > naxis` the index is out of bounds and
the bounds check aborts.  Both panics are modelled as `none`; a returned
`usize` is modelled as `some`. -/
def fits_index_to_array_index (fits_index naxis : Nat) : Option Nat :=
  if fits_index = 0 then none
  else ((List.range naxis).reverse)[fits_index - 1]?

/-- The two `fitsio::errors::Error::Message` shapes produced by `parse_mode`
(src/main.rs:217 and 228), rendered structurally: the length-mismatch message
carries the mode string length and the cube dimensionality, the parse-failure
message carries the offending token. -/
inductive ModeError where
  | lengthMismatch (modeLen ndim : Nat)
  | parseError (token : String)
  deriving DecidableEq

/-- Embeds Rust `str::split(",")` on the character sequence of the string:
every maximal run between commas becomes a token, so an empty string yields
one empty token and adjacent commas yield empty tokens, exactly as in Rust. -/
def splitOnComma : List Char → List (List Char)
  | [] => [[]]
  | x :: xs =>
    if x = ',' then [] :: splitOnComma xs
    else
      match splitOnComma xs with
      | [] => [[x]]
      | y :: ys => (x :: y) :: ys

/-- Embeds Rust `str::parse::<usize>()` on a token's characters: an optional
leading `+` followed by one or more decimal digits.  (Overflow of the 64-bit
range is not modelled; no token considered here approaches it.) -/
def parseUsize (s : List Char) : Option Nat :=
  let t := match s with
    | '+' :: rest => rest
    | _ => s
  match t with
  | [] => none
  | _ => parseDigits t 0
where
  /-- Accumulates decimal digits left to right, failing on a non-digit. -/
  parseDigits : List Char → Nat → Option Nat
    | [], acc => some acc
    | c :: cs, acc =>
      if c.isDigit then parseDigits cs (acc * 10 + (c.toNat - 48)) else none

/-- Loop of `parse_mode` (src/main.rs:222-231): push each parsed token onto
`mode_int`, returning the parse error of the first non-integer token. -/
def parseModeTokens : List (List Char) → List Nat → Except ModeError (List Nat)
  | [], acc => .ok acc
  | m :: rest, acc =>
    match parseUsize m with
    | some m_int => parseModeTokens rest (acc ++ [m_int])
    | none => .error (.parseError (String.mk m))

/-- Embeds `parse_mode` (src/main.rs:213-234).  The length guard compares the
length of the mode *string* (`mode.len()`) with the cube dimensionality, and
the string is then split on `","`. -/
def parse_mode (mode : String) (cube_ndim : Nat) : Except ModeError (List Nat) :=
  if mode.length ≠ cube_ndim then
    .error (.lengthMismatch mode.length cube_ndim)
  else
    parseModeTokens (splitOnComma mode.data) []

/-- A FITS header, modelled as the association of key names (cards) to string
values. -/
abbrev Header : Type := List (String × String)

/-- Embeds `hdu.read_key` for string values: the value stored under `k`, or
`none` when the key is absent (fitsio reports a missing-key `Error`). -/
def readKey : Header → String → Option String
  | [], _ => none
  | p :: rest, k => if p.1 = k then some p.2 else readKey rest k

/-- Embeds `hdu.write_key`: update the card in place when the key exists,
append a new card otherwise. -/
def writeKey : Header → String → String → Header
  | [], k, v => [(k, v)]
  | p :: rest, k, v =>
    if p.1 = k then (k, v) :: rest else p :: writeKey rest k v

/-- The in-memory cube (`ndarray::ArrayD<f32>`): a shape in storage order
together with the sample at each multi-index.  Samples are an opaque type
parameter; the core never computes with sample values. -/
structure ArrayD (α : Type) where
  shape : List Nat
  datum : List Nat → α

/-- Embeds `ndarray`'s `permuted_axes`: new axis `j` is old axis `axes[j]`,
so the new shape maps `axes` through the old shape and the sample at a new
multi-index `v` is the old sample at the multi-index that places `v[j]` on
old axis `axes[j]`. -/
def ArrayD.permuted_axes {α : Type} (a : ArrayD α) (axes : List Nat) : ArrayD α :=
  { shape := axes.map (fun i => a.shape.getD i 0)
    datum := fun v => a.datum ((List.range a.shape.length).map
      (fun k => v.getD (axes.indexOf k) 0)) }

/-- Outcome of the axis search inside `rotate_fits_cube_axes`. -/
inductive FreqSearch where
  | found (fits_idx : Nat)
  | keyErr (card : String)
  | exhausted

/-- The search loop of `rotate_fits_cube_axes` (src/main.rs:87-105) over the
remaining FITS axis numbers: read `CTYPE{i}`; stop at the first value equal
to `"FREQ"`; a missing key is the recoverable error propagated by `?`; an
exhausted range falls through to the `panic!` at src/main.rs:108. -/
def findFreqAxis (header : Header) : List Nat → FreqSearch
  | [] => .exhausted
  | i :: rest =>
    match readKey header ("CTYPE" ++ Nat.repr i) with
    | none => .keyErr ("CTYPE" ++ Nat.repr i)
    | some v => if v = "FREQ" then .found i else findFreqAxis header rest

/-- Result of `rotate_fits_cube_axes`: the `Ok(RotatedFitsCube)` value (the
permuted data and the FITS index of the frequency axis), a recoverable
`fitsio` error, or a process-aborting panic. -/
inductive RotateOutcome (α : Type) where
  | ok (data : ArrayD α) (fits_idx : Nat)
  | err (card : String)
  | panicked (msg : String)

/-- Embeds `rotate_fits_cube_axes` (src/main.rs:83-109): search the header for
the first axis with `CTYPE{i} == "FREQ"`; on a match remove that axis's array
position from the identity axis sequence, append it at the end and permute;
when no axis matches the function panics. -/
def rotate_fits_cube_axes {α : Type} (fits_cube : ArrayD α) (header : Header) :
    RotateOutcome α :=
  let shape := fits_cube.shape
  let axes := List.range shape.length
  match findFreqAxis header (List.range' 1 shape.length) with
  | .keyErr card => .err card
  | .exhausted => .panicked "Could not find frequency axis"
  | .found fits_idx =>
    match fits_index_to_array_index fits_idx shape.length with
    | none => .panicked "index out of bounds"
    | some idx =>
      let new_axes := axes.eraseIdx idx ++ [idx]
      .ok (fits_cube.permuted_axes new_axes) fits_idx

/-- The contents of one FITS file on disk: its header cards and, once
written, its image (shape and samples).  A freshly created file that has not
yet received `write_image` has no image. -/
structure FitsContent (α : Type) where
  header : Header
  image : Option (ArrayD α)

/-- The filesystem visible to the program: an association of paths to FITS
file contents. -/
abbrev Fs (α : Type) : Type := List (String × FitsContent α)

/-- Path existence (`Path::new(filename).exists()`). -/
def fsExists {α : Type} (fs : Fs α) (path : String) : Bool :=
  fs.any (fun p => p.1 == path)

/-- `std::fs::remove_file`. -/
def fsRemove {α : Type} (fs : Fs α) (path : String) : Fs α :=
  fs.filter (fun p => p.1 != path)

/-- `FitsFile::open` followed by reading the primary HDU. -/
def fsLookup {α : Type} (fs : Fs α) (path : String) : Option (FitsContent α) :=
  (fs.find? (fun p => p.1 == path)).map (fun p => p.2)

/-- Embeds `check_file_exists` (src/main.rs:135-140): an `ExistingFile` error
when the file exists and overwrite was not requested, `Ok(true)` otherwise. -/
def check_file_exists {α : Type} (fs : Fs α) (filename : String)
    (overwrite : Bool) : Except String Bool :=
  if !overwrite && fsExists fs filename then .error filename else .ok true

/-- The five per-axis key stubs remapped by `write_fits_cube`
(src/main.rs:191). -/
def cardStubs : List String := ["CTYPE", "CRVAL", "CDELT", "CRPIX", "CUNIT"]

/-- One iteration of the inner remap loop of `write_fits_cube`
(src/main.rs:192-206) at FITS index `fits_idx`, acting on the destination
header under construction.  A `true` second component records that an
`unwrap` on a missing source key has aborted the process; nothing further is
written after that.  When `fits_idx` equals the old spectral index the source
card `{stub}{fits_idx}` is rewritten to `{stub}1`; otherwise when it equals 1
the source card `{stub}1` is rewritten to `{stub}{old_spec_idx}`; all other
indices are skipped. -/
def remapStep (old_header : Header) (old_spec_idx : Nat) (stub : String)
    (st : Header × Bool) (fits_idx : Nat) : Header × Bool :=
  if st.2 then st
  else if fits_idx = old_spec_idx then
    match readKey old_header (stub ++ Nat.repr fits_idx) with
    | some head_val => (writeKey st.1 (stub ++ Nat.repr 1) head_val, false)
    | none => (st.1, true)
  else if fits_idx = 1 then
    match readKey old_header (stub ++ Nat.repr fits_idx) with
    | some head_val => (writeKey st.1 (stub ++ Nat.repr old_spec_idx) head_val, false)
    | none => (st.1, true)
  else st

/-- The double loop of `write_fits_cube` (src/main.rs:191-207): every stub in
`cardStubs`, every FITS index in `1..=naxis`, starting from the destination
header `h0` produced by `copy_to`. -/
def remapAxisKeys (old_header : Header) (old_spec_idx naxis : Nat)
    (h0 : Header) : Header × Bool :=
  cardStubs.foldl
    (fun st stub =>
      (List.range' 1 naxis).foldl (remapStep old_header old_spec_idx stub) st)
    (h0, false)

/-- Result of `write_fits_cube`: the literal `Ok("Wow")`, the `ExistingFile`
error, or the process abort from an `unwrap` on a missing source key. -/
inductive WriteOutcome where
  | ok (msg : String)
  | err (path : String)
  | panicked (msg : String)

/-- The part of `write_fits_cube` after the overwrite guard
(src/main.rs:175-210): create the destination with the permuted shape, copy
the source HDU into it (so the destination header starts as the source
header), run the per-axis key remap, then write the image buffer.  On a
remap panic the partially written destination is left behind with no image. -/
def writeFreshFitsCube {α : Type} (fs : Fs α) (filename : String)
    (fits_cube : ArrayD α) (old_spec_idx : Nat) (old_header : Header) :
    Fs α × WriteOutcome :=
  let st := remapAxisKeys old_header old_spec_idx fits_cube.shape.length old_header
  if st.2 then
    (fs ++ [(filename, ⟨st.1, none⟩)], .panicked "missing header key")
  else
    (fs ++ [(filename, ⟨st.1, some fits_cube⟩)], .ok "Wow")

/-- Embeds `write_fits_cube` (src/main.rs:158-211): the overwrite guard first
— an existing destination is an `ExistingFile` error unless `overwrite` is
set, in which case it is removed — then the fresh write. -/
def write_fits_cube {α : Type} (fs : Fs α) (filename : String)
    (fits_cube : ArrayD α) (old_spec_idx : Nat) (old_header : Header)
    (overwrite : Bool) : Fs α × WriteOutcome :=
  if fsExists fs filename then
    if overwrite then
      writeFreshFitsCube (fsRemove fs filename) filename fits_cube old_spec_idx
        old_header
    else (fs, .err filename)
  else writeFreshFitsCube fs filename fits_cube old_spec_idx old_header

/-- `pat` is a leading segment of the second list. -/
def listStartsWith : List Char → List Char → Bool
  | [], _ => true
  | _ :: _, [] => false
  | p :: ps, c :: cs => p == c && listStartsWith ps cs

/-- Fuel-driven core of Rust `str::replace`: replace each non-overlapping
occurrence of `pat`, scanning left to right.  The fuel is the length of the
scanned list, which one unit per consumed character cannot exhaust. -/
def replaceCharsAux (pat rep : List Char) : Nat → List Char → List Char
  | 0, s => s
  | _ + 1, [] => []
  | fuel + 1, c :: cs =>
    if listStartsWith pat (c :: cs) then
      rep ++ replaceCharsAux pat rep fuel (List.drop (pat.length - 1) cs)
    else c :: replaceCharsAux pat rep fuel cs

/-- Embeds Rust `str::replace` (used at src/main.rs:254 to derive the output
path from the input path). -/
def replaceStr (s pat rep : String) : String :=
  ⟨replaceCharsAux pat.data rep.data s.data.length s.data⟩

/-- Outcome of a `main` run (src/main.rs:250-299): which arm of its match
chain reported, with the value it printed. -/
inductive MainOutcome where
  | earlyExit (path : String)
  | panicked (msg : String)
  | modeErr (e : ModeError)
  | rotateErr (card : String)
  | writeErr (path : String)
  | done (path : String)

/-- Embeds `main` (src/main.rs:250-299) over the filesystem model: derive the
output path by suffix replacement, run the overwrite guard, read the cube and
header, parse the mode (whose parsed value is never consulted again),
auto-rotate, and write.  The `unwrap`s inside `read_fits_cube` are the
`panicked` arms. -/
def main {α : Type} (fs : Fs α) (filename mode : String) (overwrite : Bool) :
    Fs α × MainOutcome :=
  let out_filename := replaceStr filename ".fits" ".rot.fits"
  match check_file_exists fs out_filename overwrite with
  | .error e => (fs, .earlyExit e)
  | .ok _ =>
    match fsLookup fs filename with
    | none => (fs, .panicked "FitsFile::open failed")
    | some content =>
      match content.image with
      | none => (fs, .panicked "read_image failed")
      | some fits_cube =>
        match parse_mode mode fits_cube.shape.length with
        | .error e => (fs, .modeErr e)
        | .ok _ =>
          match rotate_fits_cube_axes fits_cube content.header with
          | .err card => (fs, .rotateErr card)
          | .panicked msg => (fs, .panicked msg)
          | .ok data fits_idx =>
            let res := write_fits_cube fs out_filename data fits_idx
              content.header overwrite
            match res.2 with
            | .ok _ => (res.1, .done out_filename)
            | .err e => (res.1, .writeErr e)
            | .panicked msg => (res.1, .panicked msg)

/-- In-range behaviour of the index mapper: `naxis - fits_index`. -/
theorem fits_index_in_range (fits_index naxis : Nat) (h1 : 1 ≤ fits_index)
    (h2 : fits_index ≤ naxis) :
    fits_index_to_array_index fits_index naxis = some (naxis - fits_index) := by
  unfold fits_index_to_array_index
  rw [if_neg (by omega)]
  have hlen : fits_index - 1 < ((List.range naxis).reverse).length := by
    simp [List.length_reverse, List.length_range]; omega
  rw [List.getElem?_eq_getElem hlen]
  simp [List.getElem_reverse, List.getElem_range]
  omega

/-- C1: for every `naxis ≥ 1` and `fitsIndex ∈ [1, naxis]` the index mapper
returns `naxis - fitsIndex`, and `fitsIndex ↦ naxis - fitsIndex` is a
bijection from `{1, …, naxis}` onto `{0, …, naxis-1}`. -/
theorem index_mapper_correct_and_bijective (naxis : Nat) (h : 1 ≤ naxis) :
    (∀ i, 1 ≤ i → i ≤ naxis →
      fits_index_to_array_index i naxis = some (naxis - i)) ∧
    Set.BijOn (fun i => naxis - i) (Set.Icc 1 naxis) (Set.Ico 0 naxis) := by
  refine ⟨fun i h1 h2 => fits_index_in_range i naxis h1 h2, ?_, ?_, ?_⟩
  · intro i hi
    simp only [Set.mem_Icc] at hi
    simp only [Set.mem_Ico]
    omega
  · intro i hi j hj hij
    simp only [Set.mem_Icc] at hi hj
    simp only at hij
    omega
  · intro m hm
    simp only [Set.mem_Ico] at hm
    refine ⟨naxis - m, ?_, ?_⟩
    · simp only [Set.mem_Icc]; omega
    · simp only; omega

/-- Witness for C1 at `naxis = 3`. -/
theorem index_mapper_correct_and_bijective_witness :
    (∀ i, 1 ≤ i → i ≤ 3 → fits_index_to_array_index i 3 = some (3 - i)) ∧
    Set.BijOn (fun i => 3 - i) (Set.Icc 1 3) (Set.Ico 0 3) :=
  index_mapper_correct_and_bijective 3 (by decide)

/-- C9: evaluating the index mapper at out-of-range inputs.  The code aborts
with a panic (modelled `none`): it never produces an `InvalidAxis` error
value — no such error type exists in the code — contrary to the claim. -/
theorem index_mapper_out_of_range_panics :
    fits_index_to_array_index 0 3 = none ∧
    fits_index_to_array_index 4 3 = none ∧
    fits_index_to_array_index 1 0 = none := by
  refine ⟨rfl, ?_, rfl⟩
  unfold fits_index_to_array_index
  decide

theorem parseModeTokens_all_ok (l : List (List Char)) (acc : List Nat)
    (h : ∀ t ∈ l, (parseUsize t).isSome) :
    parseModeTokens l acc = .ok (acc ++ l.filterMap parseUsize) := by
  induction l generalizing acc with
  | nil => simp [parseModeTokens]
  | cons m rest ih =>
    obtain ⟨v, hv⟩ := Option.isSome_iff_exists.mp (h m (by simp))
    simp only [parseModeTokens, hv]
    rw [ih (acc ++ [v]) (fun t ht => h t (by simp [ht]))]
    simp [hv]

theorem parseModeTokens_first_error (pre : List (List Char)) (t : List Char)
    (post : List (List Char)) (acc : List Nat)
    (hpre : ∀ u ∈ pre, (parseUsize u).isSome) (ht : parseUsize t = none) :
    parseModeTokens (pre ++ t :: post) acc = .error (.parseError (String.mk t)) := by
  induction pre generalizing acc with
  | nil => simp [parseModeTokens, ht]
  | cons u rest ih =>
    obtain ⟨v, hv⟩ := Option.isSome_iff_exists.mp (hpre u (by simp))
    simp only [List.cons_append, parseModeTokens, hv]
    apply ih
    · exact fun w hw => hpre w (by simp [hw])

/-- C6 (counterexample): `"3,2,1"` on a 3-axis cube consists of exactly three
integer tokens, yet the code rejects it with the length-mismatch error (the
guard compares the *string* length 5 with `naxis = 3`), instead of returning
the parsed sequence `[3, 2, 1]` as the claim requires. -/
theorem parse_mode_not_token_counted :
    parse_mode "3,2,1" 3 = .error (.lengthMismatch 5 3) ∧
    (splitOnComma "3,2,1".data).length = 3 ∧
    (∀ t ∈ splitOnComma "3,2,1".data, (parseUsize t).isSome) ∧
    parse_mode "3,2,1" 3 ≠ .ok [3, 2, 1] := by
  refine ⟨rfl, rfl, by decide, fun h => ?_⟩
  rw [show parse_mode "3,2,1" 3 = .error (.lengthMismatch 5 3) from rfl] at h
  exact Except.noConfusion h

/-- C6 (amended): `parse_mode` fails with the length-mismatch error exactly
when the mode *string's* length differs from the cube dimensionality;
otherwise it splits the string on `","` and parses each token as an unsigned
integer, failing with a parse error carrying the first offending token, and
on success returns the full parsed token sequence (whose token count may
differ from `naxis`). -/
theorem parse_mode_behaviour (mode : String) (ndim : Nat) :
    (mode.length ≠ ndim →
      parse_mode mode ndim = .error (.lengthMismatch mode.length ndim)) ∧
    (mode.length = ndim →
      ((∀ t ∈ splitOnComma mode.data, (parseUsize t).isSome) →
        parse_mode mode ndim = .ok ((splitOnComma mode.data).filterMap parseUsize)) ∧
      (∀ pre t post, splitOnComma mode.data = pre ++ t :: post →
        (∀ u ∈ pre, (parseUsize u).isSome) → parseUsize t = none →
        parse_mode mode ndim = .error (.parseError (String.mk t)))) := by
  refine ⟨fun hne => by simp [parse_mode, hne], fun heq => ⟨fun hall => ?_, ?_⟩⟩
  · rw [parse_mode, if_neg (by omega)]
    simpa using parseModeTokens_all_ok (splitOnComma mode.data) [] hall
  · intro pre t post hsplit hpre ht
    rw [parse_mode, if_neg (by omega), hsplit]
    exact parseModeTokens_first_error pre t post [] hpre ht

/-- Witness for C6 (amended) at mode `"321"` on a 3-axis cube: the string
length matches, the single token `"321"` parses, and the result is the
one-element sequence `[321]`. -/
theorem parse_mode_behaviour_witness : parse_mode "321" 3 = .ok [321] := by
  have h := ((parse_mode_behaviour "321" 3).2 rfl).1 (by decide)
  exact h.trans (by rfl)

/-- C7: `parse_mode` performs no permutation-validity check.  On a 1-axis cube
the modes `"0"` (contains zero) and `"2"` (value greater than `naxis`) are
both accepted, and on a 5-axis cube `"1,1,1"` (repeated values) is accepted;
none of them is a permutation of `1..=naxis`, and no `InvalidPermutation`
rejection exists anywhere in the code. -/
theorem parse_mode_accepts_non_permutations :
    parse_mode "0" 1 = .ok [0] ∧
    parse_mode "2" 1 = .ok [2] ∧
    parse_mode "1,1,1" 5 = .ok [1, 1, 1] :=
  ⟨rfl, rfl, rfl⟩

theorem readKey_nil (k : String) : readKey [] k = none := rfl

theorem readKey_cons (p : String × String) (rest : Header) (k : String) :
    readKey (p :: rest) k = if p.1 = k then some p.2 else readKey rest k := rfl

theorem readKey_writeKey (h : Header) (k v k' : String) :
    readKey (writeKey h k v) k' = if k' = k then some v else readKey h k' := by
  induction h with
  | nil =>
    rw [show writeKey [] k v = [(k, v)] from rfl, readKey_cons]
    by_cases hk : k = k'
    · rw [if_pos hk, if_pos hk.symm]
    · rw [if_neg hk, if_neg (fun hh => hk hh.symm), readKey_nil]
  | cons p rest ih =>
    by_cases hp : p.1 = k
    · rw [show writeKey (p :: rest) k v = (k, v) :: rest from by
        simp [writeKey, hp], readKey_cons]
      by_cases hk : k = k'
      · rw [if_pos hk, if_pos hk.symm]
      · rw [if_neg hk, if_neg (fun hh => hk hh.symm), readKey_cons,
          if_neg (fun hh => hk (hp.symm.trans hh))]
    · rw [show writeKey (p :: rest) k v = p :: writeKey rest k v from by
        simp [writeKey, hp], readKey_cons]
      by_cases hpk : p.1 = k'
      · rw [if_pos hpk, if_neg (fun hh => hp (hpk.trans hh)), readKey_cons,
          if_pos hpk]
      · rw [if_neg hpk, ih, readKey_cons, if_neg hpk]

theorem findFreqAxis_found (header : Header) (s n i : Nat)
    (h : findFreqAxis header (List.range' s n) = .found i) :
    s ≤ i ∧ i < s + n ∧
    readKey header ("CTYPE" ++ Nat.repr i) = some "FREQ" ∧
    ∀ j, s ≤ j → j < i →
      ∃ v, readKey header ("CTYPE" ++ Nat.repr j) = some v ∧ v ≠ "FREQ" := by
  induction n generalizing s with
  | zero => exact absurd h (by simp [findFreqAxis])
  | succ n ih =>
    rw [List.range'_succ] at h
    cases hk : readKey header ("CTYPE" ++ Nat.repr s) with
    | none =>
      simp only [findFreqAxis, hk] at h
      exact FreqSearch.noConfusion h
    | some v =>
      simp only [findFreqAxis, hk] at h
      by_cases hv : v = "FREQ"
      · rw [if_pos hv] at h
        cases h
        exact ⟨Nat.le_refl _, by omega, hv ▸ hk, fun j hj1 hj2 => by omega⟩
      · rw [if_neg hv] at h
        obtain ⟨h1, h2, h3, h4⟩ := ih (s + 1) h
        refine ⟨by omega, by omega, h3, fun j hj1 hj2 => ?_⟩
        rcases Nat.lt_or_ge j (s + 1) with hj | hj
        · have : j = s := by omega
          exact this ▸ ⟨v, hk, hv⟩
        · exact h4 j hj hj2

/-- C2: whenever `rotate_fits_cube_axes` succeeds with FITS index `i`, `i` is
the first axis (in ascending file-axis order) whose `CTYPE` value equals
`"FREQ"`, and the result is the cube permuted by removing array position
`naxis - i` from the identity sequence and appending it at the end; on the
3-axis cube of shape (10,20,30) with `CTYPE1="RA"`, `CTYPE2="DEC"`,
`CTYPE3="FREQ"` the detected axis is 3 and the permuted shape is (20,30,10). -/
theorem auto_detect_selects_first_freq_axis :
    (∀ (α : Type) (cube : ArrayD α) (header : Header) (c' : ArrayD α) (i : Nat),
      rotate_fits_cube_axes cube header = .ok c' i →
      1 ≤ i ∧ i ≤ cube.shape.length ∧
      readKey header ("CTYPE" ++ Nat.repr i) = some "FREQ" ∧
      (∀ j, 1 ≤ j → j < i →
        ∃ v, readKey header ("CTYPE" ++ Nat.repr j) = some v ∧ v ≠ "FREQ") ∧
      c' = cube.permuted_axes
        ((List.range cube.shape.length).eraseIdx (cube.shape.length - i)
          ++ [cube.shape.length - i])) ∧
    (∃ c' : ArrayD Unit,
      rotate_fits_cube_axes ⟨[10, 20, 30], fun _ => ()⟩
        [("CTYPE1", "RA"), ("CTYPE2", "DEC"), ("CTYPE3", "FREQ")] = .ok c' 3 ∧
      c'.shape = [20, 30, 10]) := by
  constructor
  · intro α cube header c' i h
    cases hf : findFreqAxis header (List.range' 1 cube.shape.length) with
    | keyErr card =>
      simp only [rotate_fits_cube_axes, hf] at h
      exact RotateOutcome.noConfusion h
    | exhausted =>
      simp only [rotate_fits_cube_axes, hf] at h
      exact RotateOutcome.noConfusion h
    | found fi =>
      obtain ⟨h1, h2, h3, h4⟩ := findFreqAxis_found header 1 cube.shape.length fi hf
      simp only [rotate_fits_cube_axes, hf,
        fits_index_in_range fi cube.shape.length h1 (by omega)] at h
      cases h
      exact ⟨h1, by omega, h3, h4, rfl⟩
  · exact ⟨_, rfl, rfl⟩

/-- Witness for C2: the general part applied to the concrete 3-axis scenario,
recovering the detected axis bounds and the `CTYPE3 = "FREQ"` match. -/
theorem auto_detect_selects_first_freq_axis_witness :
    1 ≤ 3 ∧ 3 ≤ ([10, 20, 30] : List Nat).length ∧
    readKey [("CTYPE1", "RA"), ("CTYPE2", "DEC"), ("CTYPE3", "FREQ")]
      ("CTYPE" ++ Nat.repr 3) = some "FREQ" ∧
    (∀ j, 1 ≤ j → j < 3 →
      ∃ v, readKey [("CTYPE1", "RA"), ("CTYPE2", "DEC"), ("CTYPE3", "FREQ")]
        ("CTYPE" ++ Nat.repr j) = some v ∧ v ≠ "FREQ") ∧
    (ArrayD.mk [10, 20, 30] (fun _ => ())).permuted_axes
        ((List.range 3).eraseIdx 0 ++ [0]) =
      (ArrayD.mk [10, 20, 30] (fun _ => ())).permuted_axes
        ((List.range (3 : Nat)).eraseIdx (3 - 3) ++ [3 - 3]) :=
  auto_detect_selects_first_freq_axis.1 Unit
    ⟨[10, 20, 30], fun _ => ()⟩
    [("CTYPE1", "RA"), ("CTYPE2", "DEC"), ("CTYPE3", "FREQ")]
    ((ArrayD.mk [10, 20, 30] (fun _ => ())).permuted_axes
      ((List.range 3).eraseIdx 0 ++ [0])) 3 rfl

theorem remapStep_id (old_header : Header) (i : Nat) (stub : String)
    (st : Header × Bool) (j : Nat) (hj1 : j ≠ i) (hj2 : j ≠ 1) :
    remapStep old_header i stub st j = st := by
  simp [remapStep, hj1, hj2]

theorem foldl_remapStep_id (old_header : Header) (i : Nat) (stub : String)
    (st : Header × Bool) (L : List Nat)
    (hL : ∀ j ∈ L, j ≠ i ∧ j ≠ 1) :
    L.foldl (remapStep old_header i stub) st = st := by
  induction L generalizing st with
  | nil => rfl
  | cons a L ih =>
    rw [List.foldl_cons,
      remapStep_id old_header i stub st a (hL a (by simp)).1 (hL a (by simp)).2]
    exact ih st (fun j hj => hL j (by simp [hj]))

theorem readKey_stubRemap (old_header : Header) (i naxis : Nat) (stub : String)
    (h : Header) (v1 vi : String)
    (hi1 : 1 ≤ i) (hin : i ≤ naxis)
    (hv1 : readKey old_header (stub ++ Nat.repr 1) = some v1)
    (hvi : readKey old_header (stub ++ Nat.repr i) = some vi) :
    ((List.range' 1 naxis).foldl (remapStep old_header i stub) (h, false)).2
      = false ∧
    ∀ k, readKey
        ((List.range' 1 naxis).foldl (remapStep old_header i stub) (h, false)).1 k =
      if k = stub ++ Nat.repr 1 then some vi
      else if k = stub ++ Nat.repr i then some v1
      else readKey h k := by
  by_cases hi : i = 1
  · subst hi
    have hvv : v1 = vi := by
      rw [hv1] at hvi
      exact Option.some.inj hvi
    obtain ⟨m, rfl⟩ : ∃ m, naxis = m + 1 := ⟨naxis - 1, by omega⟩
    rw [List.range'_succ, List.foldl_cons,
      show remapStep old_header 1 stub (h, false) 1 =
        (writeKey h (stub ++ Nat.repr 1) v1, false) from by
          simp [remapStep, hv1],
      foldl_remapStep_id old_header 1 stub _ _
        (fun j hj => by
          have := List.mem_range'_1.mp hj
          omega)]
    refine ⟨rfl, fun k => ?_⟩
    rw [readKey_writeKey]
    by_cases hk : k = stub ++ Nat.repr 1
    · rw [if_pos hk, if_pos hk, hvv]
    · simp only [if_neg hk]
  · have hsplit : List.range' 1 naxis =
        (1 :: List.range' 2 (i - 2)) ++ i :: List.range' (i + 1) (naxis - i) := by
      have e1 := List.range'_append 1 (i - 1) (naxis - i + 1) 1
      rw [show (1 : Nat) + 1 * (i - 1) = i from by omega,
        show naxis - i + 1 + (i - 1) = naxis from by omega] at e1
      rw [← e1, show i - 1 = (i - 2) + 1 from by omega, List.range'_succ,
        show naxis - i + 1 = (naxis - i) + 1 from rfl, List.range'_succ]
    have step1 : (1 :: List.range' 2 (i - 2)).foldl
        (remapStep old_header i stub) (h, false) =
        (writeKey h (stub ++ Nat.repr i) v1, false) := by
      rw [List.foldl_cons,
        show remapStep old_header i stub (h, false) 1 =
          (writeKey h (stub ++ Nat.repr i) v1, false) from by
            simp [remapStep, hv1, show ¬(1 = i) from fun e => hi e.symm]]
      exact foldl_remapStep_id old_header i stub _ _
        (fun j hj => by
          have := List.mem_range'_1.mp hj
          omega)
    have step2 : (i :: List.range' (i + 1) (naxis - i)).foldl
        (remapStep old_header i stub) (writeKey h (stub ++ Nat.repr i) v1, false) =
        (writeKey (writeKey h (stub ++ Nat.repr i) v1) (stub ++ Nat.repr 1) vi,
          false) := by
      rw [List.foldl_cons,
        show remapStep old_header i stub
            (writeKey h (stub ++ Nat.repr i) v1, false) i =
          (writeKey (writeKey h (stub ++ Nat.repr i) v1) (stub ++ Nat.repr 1) vi,
            false) from by
            simp [remapStep, hvi]]
      exact foldl_remapStep_id old_header i stub _ _
        (fun j hj => by
          have := List.mem_range'_1.mp hj
          omega)
    rw [hsplit, List.foldl_append, step1, step2]
    refine ⟨rfl, fun k => ?_⟩
    rw [readKey_writeKey, readKey_writeKey]

theorem readKey_remapFold (old_header : Header) (i naxis : Nat)
    (stubs : List String) (h0 : Header)
    (hi1 : 1 ≤ i) (hin : i ≤ naxis)
    (hdist : stubs.Pairwise (fun a b => ∀ x y : String, a ++ x ≠ b ++ y))
    (hkeys : ∀ stub ∈ stubs,
      (readKey old_header (stub ++ Nat.repr 1)).isSome ∧
      (readKey old_header (stub ++ Nat.repr i)).isSome) :
    (stubs.foldl (fun st stub =>
        (List.range' 1 naxis).foldl (remapStep old_header i stub) st)
        (h0, false)).2 = false ∧
    (∀ stub ∈ stubs,
      readKey (stubs.foldl (fun st stub =>
          (List.range' 1 naxis).foldl (remapStep old_header i stub) st)
          (h0, false)).1 (stub ++ Nat.repr 1) =
        readKey old_header (stub ++ Nat.repr i) ∧
      readKey (stubs.foldl (fun st stub =>
          (List.range' 1 naxis).foldl (remapStep old_header i stub) st)
          (h0, false)).1 (stub ++ Nat.repr i) =
        readKey old_header (stub ++ Nat.repr 1)) ∧
    (∀ k, (∀ stub ∈ stubs, k ≠ stub ++ Nat.repr 1 ∧ k ≠ stub ++ Nat.repr i) →
      readKey (stubs.foldl (fun st stub =>
          (List.range' 1 naxis).foldl (remapStep old_header i stub) st)
          (h0, false)).1 k = readKey h0 k) := by
  induction stubs generalizing h0 with
  | nil => exact ⟨rfl, fun stub hs => absurd hs (List.not_mem_nil stub), fun k _ => rfl⟩
  | cons s rest ih =>
    obtain ⟨hhead, htail⟩ := List.pairwise_cons.mp hdist
    obtain ⟨v1, hv1⟩ := Option.isSome_iff_exists.mp (hkeys s (by simp)).1
    obtain ⟨vi, hvi⟩ := Option.isSome_iff_exists.mp (hkeys s (by simp)).2
    obtain ⟨hsnd, hspec⟩ :=
      readKey_stubRemap old_header i naxis s h0 v1 vi hi1 hin hv1 hvi
    simp only [List.foldl_cons]
    cases hfold : (List.range' 1 naxis).foldl (remapStep old_header i s) (h0, false) with
    | mk H1 b =>
      rw [hfold] at hsnd hspec
      have hb : b = false := hsnd
      subst hb
      have hspec1 : ∀ k, readKey H1 k =
          if k = s ++ Nat.repr 1 then some vi
          else if k = s ++ Nat.repr i then some v1
          else readKey h0 k := hspec
      obtain ⟨ih1, ih2, ih3⟩ := ih H1 htail (fun stub hs => hkeys stub (by simp [hs]))
      refine ⟨ih1, fun stub hs => ?_, fun k hk => ?_⟩
      · rcases List.mem_cons.mp hs with rfl | hs'
        · have hd1 : ∀ stub' ∈ rest,
              stub ++ Nat.repr 1 ≠ stub' ++ Nat.repr 1 ∧
              stub ++ Nat.repr 1 ≠ stub' ++ Nat.repr i :=
            fun stub' hs' => ⟨hhead stub' hs' _ _, hhead stub' hs' _ _⟩
          have hdi : ∀ stub' ∈ rest,
              stub ++ Nat.repr i ≠ stub' ++ Nat.repr 1 ∧
              stub ++ Nat.repr i ≠ stub' ++ Nat.repr i :=
            fun stub' hs' => ⟨hhead stub' hs' _ _, hhead stub' hs' _ _⟩
          rw [ih3 (stub ++ Nat.repr 1) hd1, ih3 (stub ++ Nat.repr i) hdi,
            hspec1 (stub ++ Nat.repr 1), hspec1 (stub ++ Nat.repr i), if_pos rfl]
          constructor
          · rw [hvi]
          · by_cases he : stub ++ Nat.repr i = stub ++ Nat.repr 1
            · rw [if_pos he, ← hvi, he]
            · rw [if_neg he, if_pos rfl, hv1]
        · exact ih2 stub hs'
      · rw [ih3 k (fun stub hs => hk stub (by simp [hs])),
          hspec1 k, if_neg (hk s (by simp)).1, if_neg (hk s (by simp)).2]

theorem append_ne_append (a b : String) (hlen : a.data.length = b.data.length)
    (hne : a ≠ b) : ∀ x y : String, a ++ x ≠ b ++ y := by
  intro x y h
  apply hne
  have hd := congrArg String.data h
  rw [String.data_append, String.data_append] at hd
  exact String.ext (List.append_inj hd hlen).1

theorem cardStubs_pairwise :
    cardStubs.Pairwise (fun a b => ∀ x y : String, a ++ x ≠ b ++ y) := by
  refine .cons ?_ (.cons ?_ (.cons ?_ (.cons ?_ (.cons ?_ .nil)))) <;>
    · intro b hb
      fin_cases hb <;> exact append_ne_append _ _ rfl (by decide)

/-- C3: when the destination does not yet exist and the source header carries
the five per-axis cards for axes 1 and `i`, `write_fits_cube` succeeds, and
the output header holds the source's `{stub}{i}` value under `{stub}1` and
the source's `{stub}1` value under `{stub}{i}` for every stub in
{CTYPE, CRVAL, CDELT, CRPIX, CUNIT}, while every other key reads the same in
the output header as in the source header. -/
theorem header_remap_swaps_designated_axis_keys {α : Type} (cube : ArrayD α)
    (old_header : Header) (i : Nat) (filename : String) (fs : Fs α)
    (overwrite : Bool)
    (hi1 : 1 ≤ i) (hin : i ≤ cube.shape.length)
    (hnot : fsExists fs filename = false)
    (hkeys : ∀ stub ∈ cardStubs,
      (readKey old_header (stub ++ Nat.repr 1)).isSome ∧
      (readKey old_header (stub ++ Nat.repr i)).isSome) :
    ∃ newHeader : Header,
      write_fits_cube fs filename cube i old_header overwrite =
        (fs ++ [(filename, ⟨newHeader, some cube⟩)], .ok "Wow") ∧
      (∀ stub ∈ cardStubs,
        readKey newHeader (stub ++ Nat.repr 1) =
          readKey old_header (stub ++ Nat.repr i) ∧
        readKey newHeader (stub ++ Nat.repr i) =
          readKey old_header (stub ++ Nat.repr 1)) ∧
      (∀ k, (∀ stub ∈ cardStubs, k ≠ stub ++ Nat.repr 1 ∧ k ≠ stub ++ Nat.repr i) →
        readKey newHeader k = readKey old_header k) := by
  obtain ⟨h2, hswap, hother⟩ := readKey_remapFold old_header i cube.shape.length
    cardStubs old_header hi1 hin cardStubs_pairwise hkeys
  have hra2 : (remapAxisKeys old_header i cube.shape.length old_header).2 = false := h2
  refine ⟨(remapAxisKeys old_header i cube.shape.length old_header).1,
    ?_, hswap, hother⟩
  simp only [write_fits_cube, hnot, Bool.false_eq_true, if_false,
    writeFreshFitsCube, hra2]

/-- Witness for C3: a 3-axis cube of shape (4,5,6) with the designated axis
`i = 3`; the written header holds `CTYPE1 = "FREQ"` (the old `CTYPE3`),
`CTYPE3 = "RA"` (the old `CTYPE1`), swapped `CRVAL`s, and an untouched
`CTYPE2`. -/
theorem header_remap_swaps_designated_axis_keys_witness :
    ∃ newHeader : Header,
      write_fits_cube ([] : Fs Unit) "out.fits" ⟨[4, 5, 6], fun _ => ()⟩ 3
        [("CTYPE1", "RA"), ("CTYPE2", "DEC"), ("CTYPE3", "FREQ"),
         ("CRVAL1", "cv1"), ("CRVAL3", "cv3"), ("CDELT1", "cd1"),
         ("CDELT3", "cd3"), ("CRPIX1", "cp1"), ("CRPIX3", "cp3"),
         ("CUNIT1", "cu1"), ("CUNIT3", "cu3")] false =
        ([] ++ [("out.fits", ⟨newHeader, some ⟨[4, 5, 6], fun _ => ()⟩⟩)],
          .ok "Wow") ∧
      readKey newHeader "CTYPE1" = some "FREQ" ∧
      readKey newHeader "CTYPE3" = some "RA" ∧
      readKey newHeader "CRVAL1" = some "cv3" ∧
      readKey newHeader "CRVAL3" = some "cv1" ∧
      readKey newHeader "CTYPE2" = some "DEC" := by
  obtain ⟨nh, heq, hswap, hother⟩ := header_remap_swaps_designated_axis_keys
    (⟨[4, 5, 6], fun _ => ()⟩ : ArrayD Unit)
    [("CTYPE1", "RA"), ("CTYPE2", "DEC"), ("CTYPE3", "FREQ"),
     ("CRVAL1", "cv1"), ("CRVAL3", "cv3"), ("CDELT1", "cd1"),
     ("CDELT3", "cd3"), ("CRPIX1", "cp1"), ("CRPIX3", "cp3"),
     ("CUNIT1", "cu1"), ("CUNIT3", "cu3")] 3 "out.fits" [] false
    (by decide) (by decide) rfl (by decide)
  refine ⟨nh, heq, ?_, ?_, ?_, ?_, ?_⟩
  · exact ((hswap "CTYPE" (by simp [cardStubs])).1).trans rfl
  · exact ((hswap "CTYPE" (by simp [cardStubs])).2).trans rfl
  · exact ((hswap "CRVAL" (by simp [cardStubs])).1).trans rfl
  · exact ((hswap "CRVAL" (by simp [cardStubs])).2).trans rfl
  · exact (hother "CTYPE2" (by decide)).trans rfl

/-- C8: with the destination present and overwrite unset, both the early
guard and the writer fail with the `ExistingFile` error and the filesystem —
in particular the existing destination's content — is returned unchanged;
with overwrite set the guard passes and the writer removes the existing
destination first and then performs the fresh write. -/
theorem overwrite_guard {α : Type} (fs : Fs α) (filename : String)
    (cube : ArrayD α) (i : Nat) (old_header : Header)
    (hex : fsExists fs filename = true) :
    check_file_exists fs filename false = .error filename ∧
    check_file_exists fs filename true = .ok true ∧
    write_fits_cube fs filename cube i old_header false = (fs, .err filename) ∧
    write_fits_cube fs filename cube i old_header true =
      writeFreshFitsCube (fsRemove fs filename) filename cube i old_header := by
  refine ⟨?_, ?_, ?_, ?_⟩
  · simp [check_file_exists, hex]
  · simp [check_file_exists]
  · simp [write_fits_cube, hex]
  · simp [write_fits_cube, hex]

/-- Witness for C8: a one-file filesystem whose only entry is the
destination. -/
theorem overwrite_guard_witness :
    check_file_exists [("out.fits", (⟨[], none⟩ : FitsContent Unit))]
      "out.fits" false = .error "out.fits" ∧
    check_file_exists [("out.fits", (⟨[], none⟩ : FitsContent Unit))]
      "out.fits" true = .ok true ∧
    write_fits_cube [("out.fits", (⟨[], none⟩ : FitsContent Unit))] "out.fits"
      ⟨[2], fun _ => ()⟩ 1 [] false =
      ([("out.fits", (⟨[], none⟩ : FitsContent Unit))], .err "out.fits") ∧
    write_fits_cube [("out.fits", (⟨[], none⟩ : FitsContent Unit))] "out.fits"
      ⟨[2], fun _ => ()⟩ 1 [] true =
      writeFreshFitsCube
        (fsRemove [("out.fits", (⟨[], none⟩ : FitsContent Unit))] "out.fits")
        "out.fits" ⟨[2], fun _ => ()⟩ 1 [] :=
  overwrite_guard [("out.fits", (⟨[], none⟩ : FitsContent Unit))] "out.fits"
    ⟨[2], fun _ => ()⟩ 1 [] rfl

/-- C4: the code aborts rather than returning recoverable error values: on a
3-axis cube whose header has no `"FREQ"` `CTYPE` the planner reaches
`panic!`, and on a source header missing a required per-axis card (`CRVAL1`
here) the remapper's `unwrap` aborts the process mid-write. -/
theorem planner_and_remapper_abort_on_failure :
    rotate_fits_cube_axes (ArrayD.mk [4, 5, 6] (fun _ => ()))
      [("CTYPE1", "RA"), ("CTYPE2", "DEC"), ("CTYPE3", "STOKES")] =
      .panicked "Could not find frequency axis" ∧
    (write_fits_cube ([] : Fs Unit) "out.fits" (ArrayD.mk [4, 5, 6] (fun _ => ()))
      3 [("CTYPE1", "RA"), ("CTYPE2", "DEC"), ("CTYPE3", "FREQ")] false).2 =
      .panicked "missing header key" :=
  ⟨rfl, rfl⟩

/-- C10: the pipeline result is independent of the accepted mode value: for a
fixed filesystem, input file and overwrite flag, any two mode strings that
`parse_mode` accepts produce identical final filesystems and outcomes — the
permutation actually applied is determined solely by the CTYPE search. -/
theorem pipeline_independent_of_mode {α : Type} (fs : Fs α)
    (filename m1 m2 : String) (overwrite : Bool) (c : FitsContent α)
    (cube : ArrayD α)
    (hc : fsLookup fs filename = some c) (himg : c.image = some cube)
    (h1 : (parse_mode m1 cube.shape.length).isOk = true)
    (h2 : (parse_mode m2 cube.shape.length).isOk = true) :
    main fs filename m1 overwrite = main fs filename m2 overwrite := by
  obtain ⟨v1, hv1⟩ : ∃ v, parse_mode m1 cube.shape.length = .ok v := by
    cases hh : parse_mode m1 cube.shape.length with
    | ok v => exact ⟨v, rfl⟩
    | error e =>
      rw [hh] at h1
      simp [Except.isOk, Except.toBool] at h1
  obtain ⟨v2, hv2⟩ : ∃ v, parse_mode m2 cube.shape.length = .ok v := by
    cases hh : parse_mode m2 cube.shape.length with
    | ok v => exact ⟨v, rfl⟩
    | error e =>
      rw [hh] at h2
      simp [Except.isOk, Except.toBool] at h2
  simp only [main, hc, himg, hv1, hv2]

/-- Witness for C10: the modes `"321"` and `"123"` on a 3-axis cube produce
the identical run. -/
theorem pipeline_independent_of_mode_witness :
    main [("in.fits", (⟨[("CTYPE1", "FREQ"), ("CRVAL1", "cv1"),
        ("CDELT1", "cd1"), ("CRPIX1", "cp1"), ("CUNIT1", "cu1")],
        some ⟨[4, 5, 6], fun _ => ()⟩⟩ : FitsContent Unit))]
      "in.fits" "321" false =
    main [("in.fits", (⟨[("CTYPE1", "FREQ"), ("CRVAL1", "cv1"),
        ("CDELT1", "cd1"), ("CRPIX1", "cp1"), ("CUNIT1", "cu1")],
        some ⟨[4, 5, 6], fun _ => ()⟩⟩ : FitsContent Unit))]
      "in.fits" "123" false :=
  pipeline_independent_of_mode _ "in.fits" "321" "123" false
    (⟨[("CTYPE1", "FREQ"), ("CRVAL1", "cv1"), ("CDELT1", "cd1"),
      ("CRPIX1", "cp1"), ("CUNIT1", "cu1")], some ⟨[4, 5, 6], fun _ => ()⟩⟩)
    ⟨[4, 5, 6], fun _ => ()⟩ rfl rfl rfl rfl

/-- C5 (counterexample): the mode `"321"` on a 3-axis cube is accepted, but
as the single token `[321]` — not the axis order `[3,2,1]` — and it is never
applied: with `CTYPE1 = "FREQ"` the run writes an output whose `CTYPE1` still
holds `"FREQ"` and whose `CTYPE3` still holds `"RA"`, so the output `CTYPE1`
does not hold the original `CTYPE3` value and the output `CTYPE3` does not
hold the original `CTYPE1` value, contradicting the claimed key remap. -/
theorem explicit_mode_scenario_counterexample :
    parse_mode "321" 3 = .ok [321] ∧
    ([321] : List Nat) ≠ [3, 2, 1] ∧
    (main [("in.fits", (⟨[("CTYPE1", "FREQ"), ("CTYPE2", "DEC"),
        ("CTYPE3", "RA"), ("CRVAL1", "cv1"), ("CDELT1", "cd1"),
        ("CRPIX1", "cp1"), ("CUNIT1", "cu1")],
        some ⟨[4, 5, 6], fun _ => ()⟩⟩ : FitsContent Unit))]
      "in.fits" "321" false).2 = .done "in.rot.fits" ∧
    (∃ c : FitsContent Unit,
      fsLookup (main [("in.fits", (⟨[("CTYPE1", "FREQ"), ("CTYPE2", "DEC"),
          ("CTYPE3", "RA"), ("CRVAL1", "cv1"), ("CDELT1", "cd1"),
          ("CRPIX1", "cp1"), ("CUNIT1", "cu1")],
          some ⟨[4, 5, 6], fun _ => ()⟩⟩ : FitsContent Unit))]
        "in.fits" "321" false).1 "in.rot.fits" = some c ∧
      readKey c.header "CTYPE1" = some "FREQ" ∧
      readKey c.header "CTYPE3" = some "RA") ∧
    ("FREQ" : String) ≠ "RA" := by
  refine ⟨rfl, by decide, rfl, ⟨_, rfl, rfl, rfl⟩, by decide⟩

/-- C5 (amended): `"321"` is accepted by `parse_mode` on a 3-axis cube but
parses to the single-token sequence `[321]` (the split delimiter is `","` and
the length guard compares string length with `naxis`), and the parsed mode is
discarded: the pipeline always permutes by CTYPE auto-detection.  On the
(4,5,6) cube with `CTYPE1 = "FREQ"` the output shape stays (4,5,6) and the
per-axis header cards are unchanged; with `CTYPE3 = "FREQ"` the output shape
is (5,6,4) and the output `CTYPE1`/`CTYPE3` (and the other per-axis cards for
axes 1 and 3) are swapped. -/
theorem explicit_mode_scenario_amended :
    parse_mode "321" 3 = .ok [321] ∧
    (∃ c : FitsContent Unit, ∃ cube' : ArrayD Unit,
      fsLookup (main [("in.fits", (⟨[("CTYPE1", "FREQ"), ("CTYPE2", "DEC"),
          ("CTYPE3", "RA"), ("CRVAL1", "cv1"), ("CDELT1", "cd1"),
          ("CRPIX1", "cp1"), ("CUNIT1", "cu1")],
          some ⟨[4, 5, 6], fun _ => ()⟩⟩ : FitsContent Unit))]
        "in.fits" "321" false).1 "in.rot.fits" = some c ∧
      c.image = some cube' ∧ cube'.shape = [4, 5, 6] ∧
      readKey c.header "CTYPE1" = some "FREQ" ∧
      readKey c.header "CTYPE2" = some "DEC" ∧
      readKey c.header "CTYPE3" = some "RA") ∧
    (∃ c : FitsContent Unit, ∃ cube' : ArrayD Unit,
      fsLookup (main [("in.fits", (⟨[("CTYPE1", "RA"), ("CTYPE2", "DEC"),
          ("CTYPE3", "FREQ"), ("CRVAL1", "cv1"), ("CRVAL3", "cv3"),
          ("CDELT1", "cd1"), ("CDELT3", "cd3"), ("CRPIX1", "cp1"),
          ("CRPIX3", "cp3"), ("CUNIT1", "cu1"), ("CUNIT3", "cu3")],
          some ⟨[4, 5, 6], fun _ => ()⟩⟩ : FitsContent Unit))]
        "in.fits" "321" false).1 "in.rot.fits" = some c ∧
      c.image = some cube' ∧ cube'.shape = [5, 6, 4] ∧
      readKey c.header "CTYPE1" = some "FREQ" ∧
      readKey c.header "CTYPE3" = some "RA" ∧
      readKey c.header "CRVAL1" = some "cv3" ∧
      readKey c.header "CRVAL3" = some "cv1") := by
  exact ⟨rfl, ⟨_, _, rfl, rfl, rfl, rfl, rfl, rfl⟩,
    ⟨_, _, rfl, rfl, rfl, rfl, rfl, rfl, rfl⟩⟩

end FitsRotate
